import Mathlib

/-!
# O2Physics: EMCAL cluster definitions, cluster tables and two spectra tasks

A shallow embedding of

* `PWGJE/DataModel/EMCALClusters.h` (the registry of cluster definitions,
  `getClusterDefinitionFromString`, and the two cluster tables),
* `Tutorials/Skimming/spectraTPCAnalyser.cxx` (`TPCSpectraAnalyserTask`),
* `PWGLF/Tasks/NucleiSpectraEfficiencyLight.cxx` (the `Vtx`, `Gen` and `Rec`
  tasks and `defineDataProcessing`).

Conventions of the embedding.

* `std::string` is `String`; `==` on strings is equality.
* A finite `float`/`double` value is the rational number it denotes (`ℚ`);
  comparisons of finite floating-point values are exact, so `<`, `>` on `ℚ`
  are the comparisons of the code.  Not-a-number and the infinities are not
  values of the embedding.
* The unqualified call `abs(x)` of the two tasks is resolved by the headers the
  translation unit sees: to `int abs(int)` of the C library (the argument is
  converted to `int` first) or to the floating-point overload.  Which of the two is
  not fixed by the sources embedded here, so the function the call resolves to is
  an argument of the tasks (`cxx.absInt`, `cxx.absFloat`).
* A thrown C++ exception is the `Except.error` result.
* A histogram is the list of the entries filled into it, oldest first; a
  histogram registry maps the name of a histogram to that list.
-/

/-! ## `PWGJE/DataModel/EMCALClusters.h` -/

namespace o2.aod.emcalcluster

/-- The enumeration `ClusterAlgorithm_t` of clustering algorithms used by the
definitions of `EMCALClusters.h`. -/
inductive ClusterAlgorithm_t where
  | kV1
  | kV3
deriving DecidableEq, Repr

/-- Modelled from the spec: the record type `EMCALClusterDefinition` is declared
in `EMCALClusterDefinition.h`, which is not among the sources; only its
nine-argument constructor calls are.  The fields stand in the positional order of
those constructor calls.  The first four carry the names of the spec's data model
(algorithm, numeric id, version, name); the fifth and sixth carry the names the
spec's concrete scenario gives them (`energyThreshold`, `timeLow`); the last three
are the minimum and maximum of the cell-time window and the exoticity threshold. -/
structure EMCALClusterDefinition where
  algorithm : ClusterAlgorithm_t
  id : Int
  version : Int
  name : String
  energyThreshold : ℚ
  timeLow : ℚ
  cellTimeMin : ℚ
  cellTimeMax : ℚ
  exoticityThreshold : ℚ
deriving DecidableEq

open ClusterAlgorithm_t

/-- Source: `const EMCALClusterDefinition kV1Default(ClusterAlgorithm_t::kV1, 0, 1,
"kV1Default", 0.1, 0.5, -10000, 10000, 0.03);` -/
def kV1Default : EMCALClusterDefinition :=
  ⟨kV1, 0, 1, "kV1Default", 0.1, 0.5, -10000, 10000, 0.03⟩

/-- Source: `const EMCALClusterDefinition kV1Variation1(ClusterAlgorithm_t::kV3, 1, 1,
"kV1Variation1", 0.1, 0.3, -10000, 10000, 0.03);` -/
def kV1Variation1 : EMCALClusterDefinition :=
  ⟨kV3, 1, 1, "kV1Variation1", 0.1, 0.3, -10000, 10000, 0.03⟩

/-- Source: `const EMCALClusterDefinition kV1Variation2(ClusterAlgorithm_t::kV3, 2, 1,
"kV1Variation2", 0.1, 0.2, -10000, 10000, 0.03);` -/
def kV1Variation2 : EMCALClusterDefinition :=
  ⟨kV3, 2, 1, "kV1Variation2", 0.1, 0.2, -10000, 10000, 0.03⟩

/-- Source: `const EMCALClusterDefinition kV3Default(ClusterAlgorithm_t::kV3, 10, 1,
"kV3Default", 0.1, 0.5, -10000, 10000, 0.03);` -/
def kV3Default : EMCALClusterDefinition :=
  ⟨kV3, 10, 1, "kV3Default", 0.1, 0.5, -10000, 10000, 0.03⟩

/-- Source: `const EMCALClusterDefinition kV3Variation1(ClusterAlgorithm_t::kV3, 11, 1,
"kV3Variation1", 0.1, 0.3, -10000, 10000, 0.03);` -/
def kV3Variation1 : EMCALClusterDefinition :=
  ⟨kV3, 11, 1, "kV3Variation1", 0.1, 0.3, -10000, 10000, 0.03⟩

/-- Source: `const EMCALClusterDefinition kV3Variation2(ClusterAlgorithm_t::kV3, 12, 1,
"kV3Variation2", 0.1, 0.2, -10000, 10000, 0.03);` -/
def kV3Variation2 : EMCALClusterDefinition :=
  ⟨kV3, 12, 1, "kV3Variation2", 0.1, 0.2, -10000, 10000, 0.03⟩

/-- The exceptions the header throws: `std::invalid_argument` with its message. -/
inductive Exception where
  | invalid_argument (what : String)
deriving DecidableEq, Repr

/-- The error thrown in the last branch of `getClusterDefinitionFromString`. -/
def nameNotRecognized : Exception :=
  Exception.invalid_argument "Cluster definition name not recognized"

/-- Source: `getClusterDefinitionFromString`, a chain of string comparisons ending
in `throw std::invalid_argument("Cluster definition name not recognized")`. -/
def getClusterDefinitionFromString (clusterDefinitionName : String) :
    Except Exception EMCALClusterDefinition :=
  if clusterDefinitionName = "kV1Default" then
    .ok kV1Default
  else if clusterDefinitionName = "kV1Variation1" then
    .ok kV1Variation1
  else if clusterDefinitionName = "kV1Variation2" then
    .ok kV1Variation2
  else if clusterDefinitionName = "kV3Default" then
    .ok kV3Default
  else if clusterDefinitionName = "kV3Variation1" then
    .ok kV3Variation1
  else if clusterDefinitionName = "kV3Variation2" then
    .ok kV3Variation2
  else
    .error nameNotRecognized

/-- The six names under which a definition is declared in the header. -/
def predefinedNames : List String :=
  ["kV1Default", "kV1Variation1", "kV1Variation2",
   "kV3Default", "kV3Variation1", "kV3Variation2"]

/-- The six definitions declared in the header, in the order of their declaration. -/
def predefinedDefinitions : List EMCALClusterDefinition :=
  [kV1Default, kV1Variation1, kV1Variation2, kV3Default, kV3Variation1, kV3Variation2]

end o2.aod.emcalcluster

/-! ### The two cluster tables -/

namespace o2.aod

/-- The value type of a column.  `DECLARE_SOA_COLUMN(_, _, T)` declares a column
of type `T`; `DECLARE_SOA_INDEX_COLUMN(X, x)` declares an index into the table of
all `X`; `o2::soa::Index<>` is the row index of the table itself. -/
inductive ColumnType where
  | rowIndex
  | indexInto (table : String)
  | int
  | float
  | bool
deriving DecidableEq, Repr

/-- The columns declared in namespace `emcalcluster`, and the framework's row
index `o2::soa::Index<>`. -/
inductive Column where
  | Index
  | CollisionId
  | BCId
  | ID
  | Energy
  | CoreEnergy
  | Eta
  | Phi
  | M02
  | M20
  | NCells
  | Time
  | IsExotic
  | DistanceToBadChannel
  | NLM
  | Definition
deriving DecidableEq, Repr

/-- The type each column is declared with (the `DECLARE_SOA_*` lines). -/
def Column.type : Column → ColumnType
  | .Index => .rowIndex
  | .CollisionId => .indexInto "Collision"
  | .BCId => .indexInto "BC"
  | .ID => .int
  | .Energy => .float
  | .CoreEnergy => .float
  | .Eta => .float
  | .Phi => .float
  | .M02 => .float
  | .M20 => .float
  | .NCells => .int
  | .Time => .float
  | .IsExotic => .bool
  | .DistanceToBadChannel => .float
  | .NLM => .int
  | .Definition => .int

/-- A table declaration `DECLARE_SOA_TABLE(Name, origin, description, columns...)`. -/
structure TableDeclaration where
  origin : String
  description : String
  columns : List Column
deriving DecidableEq, Repr

/-- Source: `DECLARE_SOA_TABLE(EMCALClusters, "AOD", "EMCALCLUSTERS", ...)`, the
table of clusters that could be matched to a collision. -/
def EMCALClusters : TableDeclaration :=
  { origin := "AOD"
    description := "EMCALCLUSTERS"
    columns := [.Index, .CollisionId, .ID, .Energy, .CoreEnergy, .Eta, .Phi, .M02,
                .M20, .NCells, .Time, .IsExotic, .DistanceToBadChannel, .NLM, .Definition] }

/-- Source: `DECLARE_SOA_TABLE(EMCALAmbiguousClusters, "AOD", "EMCALAMBCLUS", ...)`,
the table of ambiguous clusters that could not be matched to a collision. -/
def EMCALAmbiguousClusters : TableDeclaration :=
  { origin := "AOD"
    description := "EMCALAMBCLUS"
    columns := [.Index, .BCId, .ID, .Energy, .CoreEnergy, .Eta, .Phi, .M02,
                .M20, .NCells, .Time, .IsExotic, .DistanceToBadChannel, .NLM, .Definition] }

/-- Replace every occurrence of column `a` in a column list by column `b`. -/
def replaceColumn (a b : Column) (cols : List Column) : List Column :=
  cols.map fun c => if c = a then b else c

/-- The positions at which two column lists carry different columns, with the
two columns found there. -/
def differingPositions (xs ys : List Column) : List (Nat × Column × Column) :=
  ((List.range xs.length).zip (xs.zip ys)).filter fun e => e.2.1 ≠ e.2.2

end o2.aod

/-! ## Histograms -/

namespace o2.framework

/-- One call that fills a histogram: `Fill(x)` of a one-dimensional histogram,
`Fill(x, y)` of a two-dimensional one, or `TH1::Fill(label, w)`, which adds the
weight `w` to the bin carrying the label. -/
inductive Entry where
  | x (v : ℚ)
  | xy (a b : ℚ)
  | label (l : String) (w : ℚ)
deriving DecidableEq

/-- A histogram registry: for every histogram name, the entries filled so far,
oldest first. -/
def HistogramRegistry : Type := String → List Entry

/-- The registry as `init` leaves it: every histogram is empty. -/
def HistogramRegistry.empty : HistogramRegistry := fun _ => []

/-- The entries of the histogram `name`. -/
def HistogramRegistry.get (h : HistogramRegistry) (name : String) : List Entry := h name

/-- One fill of the histogram `name`; no other histogram changes. -/
def HistogramRegistry.fill (h : HistogramRegistry) (name : String) (e : Entry) :
    HistogramRegistry :=
  fun n => if n = name then h n ++ [e] else h n

/-- The number of fills of a histogram that went to the bin labelled `l`. -/
def countLabel (l : String) (es : List Entry) : Nat :=
  (es.filter fun e => match e with
    | .label l2 _ => l2 = l
    | _ => false).length

end o2.framework

/-! ## The unqualified call `abs(x)` -/

namespace cxx

end cxx

/-! ## `Tutorials/Skimming/spectraTPCAnalyser.cxx` -/

namespace TPCSpectraAnalyserTask

open o2.framework

/-- Source: `constexpr int Np = 9;` -/
def Np : Nat := 9

/-- Source: `hp[Np] = {"p/El", "p/Mu", "p/Pi", "p/Ka", "p/Pr", "p/De", "p/Tr", "p/He", "p/Al"}`. -/
def hp : Fin 9 → String
  | 0 => "p/El"
  | 1 => "p/Mu"
  | 2 => "p/Pi"
  | 3 => "p/Ka"
  | 4 => "p/Pr"
  | 5 => "p/De"
  | 6 => "p/Tr"
  | 7 => "p/He"
  | 8 => "p/Al"

/-- Source: `hpt[Np] = {"pt/El", "pt/Mu", "pt/Pi", "pt/Ka", "pt/Pr", "pt/De", "pt/Tr", "pt/He", "pt/Al"}`. -/
def hpt : Fin 9 → String
  | 0 => "pt/El"
  | 1 => "pt/Mu"
  | 2 => "pt/Pi"
  | 3 => "pt/Ka"
  | 4 => "pt/Pr"
  | 5 => "pt/De"
  | 6 => "pt/Tr"
  | 7 => "pt/He"
  | 8 => "pt/Al"

/-- The columns of a row of `aod::LFTracks` that the task reads. -/
structure LFTrack where
  p : ℚ
  pt : ℚ
  tpcNSigmaEl : ℚ
  tpcNSigmaMu : ℚ
  tpcNSigmaPi : ℚ
  tpcNSigmaKa : ℚ
  tpcNSigmaPr : ℚ
  tpcNSigmaDe : ℚ
  tpcNSigmaTr : ℚ
  tpcNSigmaHe : ℚ
  tpcNSigmaAl : ℚ

/-- Source: the local array `nsigma[Np]` built at the top of `process`. -/
def nsigmaOf (track : LFTrack) : Fin 9 → ℚ
  | 0 => track.tpcNSigmaEl
  | 1 => track.tpcNSigmaMu
  | 2 => track.tpcNSigmaPi
  | 3 => track.tpcNSigmaKa
  | 4 => track.tpcNSigmaPr
  | 5 => track.tpcNSigmaDe
  | 6 => track.tpcNSigmaTr
  | 7 => track.tpcNSigmaHe
  | 8 => track.tpcNSigmaAl

/-- Source: `fillParticleHistos<i>(track, nsigma)`; `nsigmacut` is the value of the
configurable of that name, `absFn` the function the unqualified `abs` resolves to. -/
def fillParticleHistos (absFn : ℚ → ℚ) (nsigmacut : ℚ) (i : Fin 9) (track : LFTrack)
    (nsigma : Fin 9 → ℚ) (histos : HistogramRegistry) : HistogramRegistry :=
  if absFn (nsigma i) > nsigmacut then
    histos
  else
    (histos.fill (hp i) (.x track.p)).fill (hpt i) (.x track.pt)

/-- Source: `TPCSpectraAnalyserTask::process`. -/
def process (absFn : ℚ → ℚ) (nsigmacut : ℚ) (track : LFTrack)
    (histos : HistogramRegistry) : HistogramRegistry :=
  let nsigma := nsigmaOf track
  let histos := histos.fill "p/Unselected" (.x track.p)
  let histos := histos.fill "pt/Unselected" (.x track.pt)
  let histos := fillParticleHistos absFn nsigmacut 0 track nsigma histos
  let histos := fillParticleHistos absFn nsigmacut 1 track nsigma histos
  let histos := fillParticleHistos absFn nsigmacut 2 track nsigma histos
  let histos := fillParticleHistos absFn nsigmacut 3 track nsigma histos
  let histos := fillParticleHistos absFn nsigmacut 4 track nsigma histos
  let histos := fillParticleHistos absFn nsigmacut 5 track nsigma histos
  let histos := fillParticleHistos absFn nsigmacut 6 track nsigma histos
  let histos := fillParticleHistos absFn nsigmacut 7 track nsigma histos
  let histos := fillParticleHistos absFn nsigmacut 8 track nsigma histos
  histos

end TPCSpectraAnalyserTask

/-! ## `PWGLF/Tasks/NucleiSpectraEfficiencyLight.cxx` -/

namespace o2.aod

/-- The columns of a row of `aod::McParticles_000` that the tasks read. -/
structure McParticle where
  isPhysicalPrimary : Bool
  y : ℚ
  pdgCode : Int
  pt : ℚ

/-- The columns of a row of the joined collision table that `Rec` reads. -/
structure Collision where
  sel8 : Bool
  posZ : ℚ

/-- The columns of a row of `TrackCandidates` that `Rec` reads; `mcParticle` is
the row of `McParticles_000` the track's label points to. -/
structure Track where
  itsNCls : Nat
  tpcNSigmaHe : ℚ
  tpcNSigmaPr : ℚ
  tpcNSigmaPi : ℚ
  tpcInnerParam : ℚ
  sign : Int
  tpcSignal : ℚ
  pt : ℚ
  eta : ℚ
  phi : ℚ
  mcParticle : McParticle

end o2.aod

namespace NucleiSpectraEfficiencyLight

open o2.framework o2.aod

/-- The three integer workflow options declared in `customize`. -/
structure WorkflowOptions where
  addVertex : Int
  addGen : Int
  addRec : Int

/-- Source: `customize`: each of `add-vertex`, `add-gen`, `add-rec` is an `Int`
option with default value `1`. -/
def customize : WorkflowOptions :=
  { addVertex := 1, addGen := 1, addRec := 1 }

/-- Source: `defineDataProcessing`.  A task of the workflow is represented by its
`TaskName`; `const bool vertex = get<int>(...)` is true exactly when the integer is
not zero. -/
def defineDataProcessing (cfgc : WorkflowOptions) : List String :=
  let vertex : Bool := decide (cfgc.addVertex ≠ 0)
  let gen : Bool := decide (cfgc.addGen ≠ 0)
  let rec_ : Bool := decide (cfgc.addRec ≠ 0)
  let workflow : List String := []
  let workflow := if vertex then workflow ++ ["nuclei-efficiency-vtx"] else workflow
  let workflow := if gen then workflow ++ ["nuclei-efficiency-gen"] else workflow
  let workflow := if rec_ then workflow ++ ["nuclei-efficiency-rec"] else workflow
  workflow

end NucleiSpectraEfficiencyLight

namespace NucleiSpectraEfficiencyLightGen

open o2.framework o2.aod

/-- Source: the body of the loop over `mcParticles` in
`NucleiSpectraEfficiencyLightGen::process`; `continue` leaves the registry as it is;
`absFn` is the function the unqualified `abs` resolves to. -/
def processParticle (absFn : ℚ → ℚ) (spectra : HistogramRegistry)
    (mcParticleGen : McParticle) : HistogramRegistry :=
  if !mcParticleGen.isPhysicalPrimary then
    spectra
  else if absFn mcParticleGen.y > 0.5 then
    spectra
  else
    let spectra :=
      if mcParticleGen.pdgCode = 211 then
        spectra.fill "histGenPtPion" (.x mcParticleGen.pt)
      else spectra
    let spectra :=
      if mcParticleGen.pdgCode = -2212 then
        spectra.fill "histGenPtProton" (.x mcParticleGen.pt)
      else spectra
    let spectra :=
      if mcParticleGen.pdgCode = -1000020030 then
        spectra.fill "histGenPtHe3" (.x mcParticleGen.pt)
      else spectra
    spectra

/-- Source: `NucleiSpectraEfficiencyLightGen::process`, the loop over the generated
particles of one MC collision. -/
def process (absFn : ℚ → ℚ) (mcParticles : List McParticle)
    (spectra : HistogramRegistry) : HistogramRegistry :=
  mcParticles.foldl (processParticle absFn) spectra

end NucleiSpectraEfficiencyLightGen

namespace NucleiSpectraEfficiencyLightRec

open o2.framework o2.aod

/-- The configurables of the task, with the values given to them at start-up. -/
structure Configurables where
  cfgCutVertex : ℚ
  cfgCutEta : ℚ
  nsigmacutLow : ℚ
  nsigmacutHigh : ℚ

/-- The default values of the configurables. -/
def defaultConfigurables : Configurables :=
  { cfgCutVertex := 10, cfgCutEta := 0.8, nsigmacutLow := -20, nsigmacutHigh := 20 }

/-- The library functions and constants the task calls, which are not part of the
repository: `TMath::Exp`, the rapidity of a `TLorentzVector` set by
`SetPtEtaPhiM(pt, eta, phi, m)`, and the three masses of `constants::physics`. -/
structure Library where
  Exp : ℚ → ℚ
  Rapidity : ℚ → ℚ → ℚ → ℚ → ℚ
  MassPionCharged : ℚ
  MassProton : ℚ
  MassHelium3 : ℚ

/-- Source: the body of the loop over `tracks` in
`NucleiSpectraEfficiencyLightRec::process`. -/
def processTrack (cfg : Configurables) (lib : Library) (spectra : HistogramRegistry)
    (track : Track) : HistogramRegistry :=
  if track.itsNCls = 0 then
    spectra
  else
    let nSigmaHe3 := track.tpcNSigmaHe
    let nSigmaHe3 := nSigmaHe3 + 94.222101 * lib.Exp (-0.905203 * track.tpcInnerParam)
    let nSigmaPr := track.tpcNSigmaPr
    let nSigmaPi := track.tpcNSigmaPi
    let spectra :=
      spectra.fill "histTpcSignal" (.xy (track.tpcInnerParam * track.sign) track.tpcSignal)
    let spectra := spectra.fill "histTpcNsigmaPi" (.xy track.tpcInnerParam nSigmaPi)
    let spectra := spectra.fill "histTpcNsigmaPr" (.xy track.tpcInnerParam nSigmaPr)
    let spectra := spectra.fill "histTpcNsigmaHe3" (.xy track.tpcInnerParam nSigmaHe3)
    let spectra := spectra.fill "histItsClusters" (.x track.itsNCls)
    let spectra :=
      if nSigmaPi > cfg.nsigmacutLow ∧ nSigmaPi < cfg.nsigmacutHigh then
        if track.mcParticle.pdgCode = 211 ∧ track.mcParticle.isPhysicalPrimary = true then
          let rapidity := lib.Rapidity track.pt track.eta track.phi lib.MassPionCharged
          if rapidity > -0.5 ∧ rapidity < 0.5 then
            spectra.fill "histRecPtPion" (.x track.pt)
          else spectra
        else spectra
      else spectra
    let spectra :=
      if nSigmaPr > cfg.nsigmacutLow ∧ nSigmaPr < cfg.nsigmacutHigh then
        if track.mcParticle.pdgCode = -2212 ∧ track.mcParticle.isPhysicalPrimary = true then
          let rapidity := lib.Rapidity track.pt track.eta track.phi lib.MassProton
          if rapidity > -0.5 ∧ rapidity < 0.5 then
            spectra.fill "histRecPtProton" (.x track.pt)
          else spectra
        else spectra
      else spectra
    let spectra :=
      if nSigmaHe3 > cfg.nsigmacutLow ∧ nSigmaHe3 < cfg.nsigmacutHigh then
        if track.mcParticle.pdgCode = -1000020030 then
          let rapidity := lib.Rapidity (track.pt * 2.0) track.eta track.phi lib.MassHelium3
          if rapidity > -0.5 ∧ rapidity < 0.5 then
            spectra.fill "histRecPtHe3" (.x (track.pt * 2.0))
          else spectra
        else spectra
      else spectra
    spectra

/-- Source: `NucleiSpectraEfficiencyLightRec::process` for one collision and its
tracks. -/
def process (cfg : Configurables) (lib : Library) (collision : Collision)
    (tracks : List Track) (spectra : HistogramRegistry) : HistogramRegistry :=
  let spectra := spectra.fill "histEvSel" (.label "all" 1)
  if collision.sel8 then
    let spectra := spectra.fill "histEvSel" (.label "sel8" 1)
    let spectra := spectra.fill "histRecVtxZ" (.x collision.posZ)
    tracks.foldl (processTrack cfg lib) spectra
  else
    spectra

/-- The registry after `process` has been called, in order, on each collision of a
list (with its tracks), starting from the empty histograms `init` books. -/
def processAll (cfg : Configurables) (lib : Library)
    (events : List (Collision × List Track)) : HistogramRegistry :=
  events.foldl (fun spectra ev => process cfg lib ev.1 ev.2 spectra) HistogramRegistry.empty

/-- A truncated exponential series, `1 + x + x^2/2 + ... + x^11/11!`, in Horner
form: a rational stand-in for `TMath::Exp` at concrete inputs. -/
def expSeries (x : ℚ) : ℚ :=
  (List.range 11).foldl (fun acc k => 1 + x / (11 - k) * acc) 1

/-- A concrete library for evaluating the task at concrete inputs: the truncated
exponential series, the rapidity of the massless limit (equal to the
pseudorapidity), and the three masses in GeV. -/
def sampleLibrary : Library :=
  { Exp := expSeries
    Rapidity := fun _ eta _ _ => eta
    MassPionCharged := 0.139570
    MassProton := 0.938272
    MassHelium3 := 2.80839 }

/-- A reconstructed track whose MC particle is an anti-helium-3 nucleus that is
not a physical primary: seven ITS clusters, rigidity 2 GeV/c, pseudorapidity 0.1. -/
def secondaryAntiHe3Track : Track :=
  { itsNCls := 7
    tpcNSigmaHe := 0.5
    tpcNSigmaPr := -35
    tpcNSigmaPi := -50
    tpcInnerParam := 2
    sign := -1
    tpcSignal := 600
    pt := 2
    eta := 0.1
    phi := 1
    mcParticle := { isPhysicalPrimary := false, y := 0.1, pdgCode := -1000020030, pt := 4 } }

end NucleiSpectraEfficiencyLightRec

/-! ## Theorems -/

section ClusterDefinitions

open o2.aod.emcalcluster

/-- C1: for every one of the six predefined names, `getClusterDefinitionFromString`
succeeds, and the `name` field of the definition it returns is the name that was
looked up. -/
theorem getClusterDefinitionFromString_name_roundtrip :
    ∀ n ∈ predefinedNames,
      ∃ d, getClusterDefinitionFromString n = .ok d ∧ d.name = n := by
  intro n hn
  simp only [predefinedNames, List.mem_cons, List.mem_singleton, List.not_mem_nil,
    or_false] at hn
  rcases hn with h | h | h | h | h | h <;> subst h
  · exact ⟨kV1Default, rfl, rfl⟩
  · exact ⟨kV1Variation1, rfl, rfl⟩
  · exact ⟨kV1Variation2, rfl, rfl⟩
  · exact ⟨kV3Default, rfl, rfl⟩
  · exact ⟨kV3Variation1, rfl, rfl⟩
  · exact ⟨kV3Variation2, rfl, rfl⟩

/-- The lookup of C1 at the name `kV3Variation1`. -/
theorem getClusterDefinitionFromString_name_roundtrip_witness :
    "kV3Variation1" ∈ predefinedNames ∧
      ∃ d, getClusterDefinitionFromString "kV3Variation1" = .ok d ∧
        d.name = "kV3Variation1" :=
  ⟨by decide, getClusterDefinitionFromString_name_roundtrip "kV3Variation1" (by decide)⟩

/-- C2: for every string `s`, `getClusterDefinitionFromString s` fails (and then
with the invalid-argument error) exactly when `s` is not one of the six predefined
names; a definition that is returned carries the name `s` itself, so no default or
partially matching definition is returned; and `"unknown"`, the empty string,
`"kv1default"`, `"kV1"` and `"kV1Default "` all fail. -/
theorem getClusterDefinitionFromString_error_iff (s : String) :
    (getClusterDefinitionFromString s = .error nameNotRecognized ↔ s ∉ predefinedNames) ∧
    ((∃ e, getClusterDefinitionFromString s = .error e) ↔ s ∉ predefinedNames) ∧
    (∀ e, getClusterDefinitionFromString s = .error e → e = nameNotRecognized) ∧
    (∀ d, getClusterDefinitionFromString s = .ok d → d.name = s) ∧
    getClusterDefinitionFromString "unknown" = .error nameNotRecognized ∧
    getClusterDefinitionFromString "" = .error nameNotRecognized ∧
    getClusterDefinitionFromString "kv1default" = .error nameNotRecognized ∧
    getClusterDefinitionFromString "kV1" = .error nameNotRecognized ∧
    getClusterDefinitionFromString "kV1Default " = .error nameNotRecognized := by
  refine ⟨?_, ?_, ?_, ?_, rfl, rfl, rfl, rfl, rfl⟩
  · unfold getClusterDefinitionFromString predefinedNames
    split_ifs <;> simp_all
  · unfold getClusterDefinitionFromString predefinedNames
    split_ifs <;> simp_all
  · intro e
    unfold getClusterDefinitionFromString
    split_ifs <;> simp_all
  · intro d
    unfold getClusterDefinitionFromString
    split_ifs <;> simp_all [kV1Default, kV1Variation1, kV1Variation2, kV3Default,
      kV3Variation1, kV3Variation2] <;> (intro h; subst h; rfl)

end ClusterDefinitions

section ClusterDefinitionValues

open o2.aod.emcalcluster ClusterAlgorithm_t

/-- C3: the lookup of `"kV1Default"` returns the constant `kV1Default`, whose
algorithm is V1, id 0, version 1, energy threshold 0.1 and lower time 0.5; the lookup
of `"kV3Variation2"` returns the constant `kV3Variation2`, whose algorithm is V3,
id 12, version 1 and energy threshold 0.1; and the two definitions differ. -/
theorem getClusterDefinitionFromString_concrete :
    (∃ d, getClusterDefinitionFromString "kV1Default" = .ok d ∧ d = kV1Default ∧
      d.algorithm = kV1 ∧ d.id = 0 ∧ d.version = 1 ∧ d.energyThreshold = 0.1 ∧
      d.timeLow = 0.5) ∧
    (∃ d, getClusterDefinitionFromString "kV3Variation2" = .ok d ∧ d = kV3Variation2 ∧
      d.algorithm = kV3 ∧ d.id = 12 ∧ d.version = 1 ∧ d.energyThreshold = 0.1) ∧
    getClusterDefinitionFromString "kV1Default" ≠
      getClusterDefinitionFromString "kV3Variation2" := by
  refine ⟨⟨kV1Default, rfl, rfl, rfl, rfl, rfl, rfl, rfl⟩,
    ⟨kV3Variation2, rfl, rfl, rfl, rfl, rfl, rfl⟩, ?_⟩
  intro h
  have h2 : kV1Default = kV3Variation2 := Except.ok.inj h
  exact absurd h2 (by decide)

/-- C4, at the inputs where the code departs from it: the names `"kV1Variation1"`
and `"kV1Variation2"` resolve to definitions tagged with the algorithm V3, not V1,
while `"kV1Default"` resolves to a definition tagged V1 and the three `kV3` names
to definitions tagged V3. -/
theorem kV1Variation_algorithm_is_kV3 :
    (∃ d, getClusterDefinitionFromString "kV1Variation1" = .ok d ∧
      d.algorithm = kV3 ∧ d.algorithm ≠ kV1) ∧
    (∃ d, getClusterDefinitionFromString "kV1Variation2" = .ok d ∧
      d.algorithm = kV3 ∧ d.algorithm ≠ kV1) ∧
    (∃ d, getClusterDefinitionFromString "kV1Default" = .ok d ∧ d.algorithm = kV1) ∧
    (∃ d, getClusterDefinitionFromString "kV3Default" = .ok d ∧ d.algorithm = kV3) ∧
    (∃ d, getClusterDefinitionFromString "kV3Variation1" = .ok d ∧ d.algorithm = kV3) ∧
    (∃ d, getClusterDefinitionFromString "kV3Variation2" = .ok d ∧ d.algorithm = kV3) :=
  ⟨⟨kV1Variation1, rfl, rfl, by decide⟩, ⟨kV1Variation2, rfl, rfl, by decide⟩,
    ⟨kV1Default, rfl, rfl⟩, ⟨kV3Default, rfl, rfl⟩, ⟨kV3Variation1, rfl, rfl⟩,
    ⟨kV3Variation2, rfl, rfl⟩⟩

end ClusterDefinitionValues

section ClusterTables

open o2.aod

/-- C5: the column lists of `EMCALClusters` and `EMCALAmbiguousClusters` have the
same length and differ at exactly one position, position 1, where the first carries
`CollisionId` and the second `BCId`; hence the column types agree at every other
position.  `EMCALClusters` has the collision column and no bunch-crossing column,
`EMCALAmbiguousClusters` the bunch-crossing column and no collision column, and
replacing `CollisionId` by `BCId` in the first list gives the second. -/
theorem EMCALClusters_columns_vs_ambiguous :
    EMCALClusters.columns.length = EMCALAmbiguousClusters.columns.length ∧
    differingPositions EMCALClusters.columns EMCALAmbiguousClusters.columns =
      [(1, Column.CollisionId, Column.BCId)] ∧
    (EMCALClusters.columns.eraseIdx 1).map Column.type =
      (EMCALAmbiguousClusters.columns.eraseIdx 1).map Column.type ∧
    EMCALClusters.columns.eraseIdx 1 = EMCALAmbiguousClusters.columns.eraseIdx 1 ∧
    Column.CollisionId ∈ EMCALClusters.columns ∧
    Column.BCId ∉ EMCALClusters.columns ∧
    Column.BCId ∈ EMCALAmbiguousClusters.columns ∧
    Column.CollisionId ∉ EMCALAmbiguousClusters.columns ∧
    replaceColumn Column.CollisionId Column.BCId EMCALClusters.columns =
      EMCALAmbiguousClusters.columns := by
  decide

end ClusterTables

section Workflow

open NucleiSpectraEfficiencyLight

/-- C6: for all integer values of the options `add-vertex`, `add-gen`, `add-rec`,
the workflow of `defineDataProcessing` contains `nuclei-efficiency-vtx` exactly when
`add-vertex` is not zero, `nuclei-efficiency-gen` exactly when `add-gen` is not zero
and `nuclei-efficiency-rec` exactly when `add-rec` is not zero; it is a sublist of
`[vtx, gen, rec]` (so the tasks come in that order, each at most once, and there is
no other task); and with the default values the workflow is `[vtx, gen, rec]`. -/
theorem defineDataProcessing_tasks (addVertex addGen addRec : Int) :
    ("nuclei-efficiency-vtx" ∈ defineDataProcessing ⟨addVertex, addGen, addRec⟩ ↔
      addVertex ≠ 0) ∧
    ("nuclei-efficiency-gen" ∈ defineDataProcessing ⟨addVertex, addGen, addRec⟩ ↔
      addGen ≠ 0) ∧
    ("nuclei-efficiency-rec" ∈ defineDataProcessing ⟨addVertex, addGen, addRec⟩ ↔
      addRec ≠ 0) ∧
    (defineDataProcessing ⟨addVertex, addGen, addRec⟩).Sublist
      ["nuclei-efficiency-vtx", "nuclei-efficiency-gen", "nuclei-efficiency-rec"] ∧
    customize = ⟨1, 1, 1⟩ ∧
    defineDataProcessing customize =
      ["nuclei-efficiency-vtx", "nuclei-efficiency-gen", "nuclei-efficiency-rec"] := by
  refine ⟨?_, ?_, ?_, ?_, rfl, by decide⟩
  all_goals
    by_cases hv : addVertex = 0 <;> by_cases hg : addGen = 0 <;> by_cases hr : addRec = 0 <;>
      simp [defineDataProcessing, hv, hg, hr]

end Workflow

section HistogramLemmas

open o2.framework

/-- What a fill does to the entries read under any name. -/
theorem HistogramRegistry.get_fill (h : HistogramRegistry) (name : String) (e : Entry)
    (n : String) :
    (h.fill name e).get n = if n = name then h.get n ++ [e] else h.get n := rfl

/-- Reading a histogram of a registry chosen by a test is reading it in the chosen
branch. -/
theorem HistogramRegistry.get_ite (c : Prop) [Decidable c] (a b : HistogramRegistry)
    (n : String) : (if c then a else b).get n = if c then a.get n else b.get n := by
  split <;> rfl

/-- Counting a label distributes over appended entries. -/
theorem countLabel_append (l : String) (xs ys : List Entry) :
    countLabel l (xs ++ ys) = countLabel l xs + countLabel l ys := by
  simp [countLabel, List.filter_append]

end HistogramLemmas

section CxxAbs

end CxxAbs

section TPCSpectra

open o2.framework TPCSpectraAnalyserTask

end TPCSpectra

section TPCSpectraProcess

open o2.framework TPCSpectraAnalyserTask

end TPCSpectraProcess

section TPCSpectraColumns

open o2.framework TPCSpectraAnalyserTask

end TPCSpectraColumns

section GeneratedSpectra

open o2.framework o2.aod NucleiSpectraEfficiencyLightGen

/-- The loop body of `NucleiSpectraEfficiencyLightGen::process` for one generated
particle, for any function `absFn` the unqualified `abs` resolves to: the particle's
`pt` is appended to `histGenPtPion`, `histGenPtProton` or `histGenPtHe3` exactly when
the particle is a physical primary, `absFn y > 0.5` is false, and its PDG code is
211, -2212 or -1000020030 respectively; nothing else changes. -/
theorem NucleiSpectraEfficiencyLightGen.processParticle_get (absFn : ℚ → ℚ)
    (spectra : HistogramRegistry) (particle : McParticle) (name : String) :
    (processParticle absFn spectra particle).get name =
      spectra.get name ++
        (if particle.isPhysicalPrimary = true ∧ absFn particle.y ≤ 0.5 ∧
            ((name = "histGenPtPion" ∧ particle.pdgCode = 211) ∨
             (name = "histGenPtProton" ∧ particle.pdgCode = -2212) ∨
             (name = "histGenPtHe3" ∧ particle.pdgCode = -1000020030))
          then [Entry.x particle.pt] else []) := by
  unfold processParticle
  by_cases hprim : particle.isPhysicalPrimary = true
  · by_cases hy : absFn particle.y > 0.5
    · simp [hprim, hy, not_le.mpr hy]
    · have hy2 : absFn particle.y ≤ 0.5 := not_lt.mp hy
      by_cases h1 : particle.pdgCode = 211
      · by_cases hn : name = "histGenPtPion" <;>
          simp [hprim, hy, hy2, h1, hn, HistogramRegistry.get_fill]
      · by_cases h2 : particle.pdgCode = -2212
        · by_cases hn : name = "histGenPtProton" <;>
            simp [hprim, hy, hy2, h2, hn, HistogramRegistry.get_fill]
        · by_cases h3 : particle.pdgCode = -1000020030
          · by_cases hn : name = "histGenPtHe3" <;>
              simp [hprim, hy, hy2, h3, hn, HistogramRegistry.get_fill]
          · simp [hprim, hy, hy2, h1, h2, h3]
  · simp [hprim]

/-- The whole loop of `NucleiSpectraEfficiencyLightGen::process` over the generated
particles of a collision, for any function `absFn` the unqualified `abs` resolves
to: every histogram gains, in the order of the particles, the `pt` of exactly the
particles the loop body accepts for it. -/
theorem NucleiSpectraEfficiencyLightGen.process_get (absFn : ℚ → ℚ)
    (mcParticles : List McParticle) (spectra : HistogramRegistry) (name : String) :
    (process absFn mcParticles spectra).get name =
      spectra.get name ++
        (mcParticles.filter (fun particle =>
          decide (particle.isPhysicalPrimary = true ∧ absFn particle.y ≤ 0.5 ∧
            ((name = "histGenPtPion" ∧ particle.pdgCode = 211) ∨
             (name = "histGenPtProton" ∧ particle.pdgCode = -2212) ∨
             (name = "histGenPtHe3" ∧ particle.pdgCode = -1000020030))))).map
          (fun particle => Entry.x particle.pt) := by
  induction mcParticles generalizing spectra with
  | nil => simp [process]
  | cons p ps ih =>
    have hstep : process absFn (p :: ps) spectra =
        process absFn ps (processParticle absFn spectra p) := rfl
    rw [hstep, ih, NucleiSpectraEfficiencyLightGen.processParticle_get, List.filter_cons]
    split_ifs with h1 h2 h2
    · simp
    · exact absurd h1 (by simpa using h2)
    · exact absurd (by simpa using h2) h1
    · simp

end GeneratedSpectra

section ReconstructedSpectra

open o2.framework o2.aod NucleiSpectraEfficiencyLightRec

/-- The loop body of `Rec::process` changes none of the histograms outside the
eight it fills for a track. -/
theorem NucleiSpectraEfficiencyLightRec.processTrack_get_other (cfg : Configurables)
    (lib : Library) (spectra : HistogramRegistry) (track : Track) (name : String)
    (h1 : name ≠ "histTpcSignal") (h2 : name ≠ "histTpcNsigmaPi")
    (h3 : name ≠ "histTpcNsigmaPr") (h4 : name ≠ "histTpcNsigmaHe3")
    (h5 : name ≠ "histItsClusters") (h6 : name ≠ "histRecPtPion")
    (h7 : name ≠ "histRecPtProton") (h8 : name ≠ "histRecPtHe3") :
    (processTrack cfg lib spectra track).get name = spectra.get name := by
  simp [processTrack, HistogramRegistry.get_ite, HistogramRegistry.get_fill,
    h1, h2, h3, h4, h5, h6, h7, h8]

/-- The loop over the tracks changes none of the histograms outside the eight the
loop body fills. -/
theorem NucleiSpectraEfficiencyLightRec.trackLoop_get_other (cfg : Configurables)
    (lib : Library) (tracks : List Track) (spectra : HistogramRegistry) (name : String)
    (h1 : name ≠ "histTpcSignal") (h2 : name ≠ "histTpcNsigmaPi")
    (h3 : name ≠ "histTpcNsigmaPr") (h4 : name ≠ "histTpcNsigmaHe3")
    (h5 : name ≠ "histItsClusters") (h6 : name ≠ "histRecPtPion")
    (h7 : name ≠ "histRecPtProton") (h8 : name ≠ "histRecPtHe3") :
    (tracks.foldl (processTrack cfg lib) spectra).get name = spectra.get name := by
  induction tracks generalizing spectra with
  | nil => rfl
  | cons t ts ih =>
    rw [List.foldl_cons, ih,
      NucleiSpectraEfficiencyLightRec.processTrack_get_other cfg lib spectra t name
        h1 h2 h3 h4 h5 h6 h7 h8]

/-- What one call of `Rec::process` does to `histEvSel` and `histRecVtxZ`. -/
theorem NucleiSpectraEfficiencyLightRec.process_get_selection (cfg : Configurables)
    (lib : Library) (collision : Collision) (tracks : List Track)
    (spectra : HistogramRegistry) :
    (process cfg lib collision tracks spectra).get "histEvSel" =
      spectra.get "histEvSel" ++
        (if collision.sel8 = true then [Entry.label "all" 1, Entry.label "sel8" 1]
          else [Entry.label "all" 1]) ∧
    (process cfg lib collision tracks spectra).get "histRecVtxZ" =
      spectra.get "histRecVtxZ" ++
        (if collision.sel8 = true then [Entry.x collision.posZ] else []) := by
  unfold process
  by_cases hs : collision.sel8 = true
  · simp only [hs, if_true]
    rw [NucleiSpectraEfficiencyLightRec.trackLoop_get_other cfg lib tracks _ "histEvSel"
        (by decide) (by decide) (by decide) (by decide) (by decide) (by decide)
        (by decide) (by decide),
      NucleiSpectraEfficiencyLightRec.trackLoop_get_other cfg lib tracks _ "histRecVtxZ"
        (by decide) (by decide) (by decide) (by decide) (by decide) (by decide)
        (by decide) (by decide)]
    simp [HistogramRegistry.get_fill]
  · simp [hs, HistogramRegistry.get_fill]

/-- C8: one call of `NucleiSpectraEfficiencyLightRec::process` raises the count of
the label `all` in `histEvSel` by exactly one; when `sel8` is false it appends that
one entry to `histEvSel` and changes no other histogram; when `sel8` is true it
appends `all` and then `sel8` to `histEvSel` (one each) and appends the collision's
z position, once, to `histRecVtxZ`.  After any sequence of calls, starting from
empty histograms, the count of `sel8` is at most the count of `all` and equals the
number of entries of `histRecVtxZ`. -/
theorem Rec_process_event_selection (cfg : Configurables) (lib : Library)
    (collision : Collision) (tracks : List Track) (spectra : HistogramRegistry) :
    countLabel "all" ((process cfg lib collision tracks spectra).get "histEvSel") =
      countLabel "all" (spectra.get "histEvSel") + 1 ∧
    (collision.sel8 = false →
      (process cfg lib collision tracks spectra).get "histEvSel" =
        spectra.get "histEvSel" ++ [Entry.label "all" 1] ∧
      ∀ name : String, name ≠ "histEvSel" →
        (process cfg lib collision tracks spectra).get name = spectra.get name) ∧
    (collision.sel8 = true →
      (process cfg lib collision tracks spectra).get "histEvSel" =
        spectra.get "histEvSel" ++ [Entry.label "all" 1, Entry.label "sel8" 1] ∧
      countLabel "sel8" ((process cfg lib collision tracks spectra).get "histEvSel") =
        countLabel "sel8" (spectra.get "histEvSel") + 1 ∧
      (process cfg lib collision tracks spectra).get "histRecVtxZ" =
        spectra.get "histRecVtxZ" ++ [Entry.x collision.posZ]) ∧
    (∀ events : List (Collision × List Track),
      countLabel "sel8" ((processAll cfg lib events).get "histEvSel") ≤
        countLabel "all" ((processAll cfg lib events).get "histEvSel") ∧
      countLabel "sel8" ((processAll cfg lib events).get "histEvSel") =
        ((processAll cfg lib events).get "histRecVtxZ").length) := by
  have hsel := NucleiSpectraEfficiencyLightRec.process_get_selection cfg lib
  refine ⟨?_, ?_, ?_, ?_⟩
  · rw [(hsel collision tracks spectra).1, countLabel_append]
    by_cases hs : collision.sel8 = true <;> simp [hs, countLabel]
  · intro hs
    refine ⟨?_, ?_⟩
    · rw [(hsel collision tracks spectra).1]; simp [hs]
    · intro name hne
      simp [process, hs, HistogramRegistry.get_fill, hne]
  · intro hs
    refine ⟨?_, ?_, ?_⟩
    · rw [(hsel collision tracks spectra).1]; simp [hs]
    · rw [(hsel collision tracks spectra).1, countLabel_append]; simp [hs, countLabel]
    · rw [(hsel collision tracks spectra).2]; simp [hs]
  · intro events
    have inv : ∀ (evs : List (Collision × List Track)) (s : HistogramRegistry),
        (countLabel "sel8" (s.get "histEvSel") ≤ countLabel "all" (s.get "histEvSel") ∧
          countLabel "sel8" (s.get "histEvSel") = (s.get "histRecVtxZ").length) →
        (countLabel "sel8"
            ((evs.foldl (fun sp ev => process cfg lib ev.1 ev.2 sp) s).get "histEvSel") ≤
          countLabel "all"
            ((evs.foldl (fun sp ev => process cfg lib ev.1 ev.2 sp) s).get "histEvSel") ∧
          countLabel "sel8"
            ((evs.foldl (fun sp ev => process cfg lib ev.1 ev.2 sp) s).get "histEvSel") =
          ((evs.foldl (fun sp ev => process cfg lib ev.1 ev.2 sp) s).get
            "histRecVtxZ").length) := by
      intro evs
      induction evs with
      | nil => intro s hs; exact hs
      | cons ev rest ih =>
        intro s hs
        rw [List.foldl_cons]
        apply ih
        rw [(hsel ev.1 ev.2 s).1, (hsel ev.1 ev.2 s).2, countLabel_append, countLabel_append]
        have e1 : countLabel "sel8" [Entry.label "all" 1, Entry.label "sel8" 1] = 1 := rfl
        have e2 : countLabel "all" [Entry.label "all" 1, Entry.label "sel8" 1] = 1 := rfl
        have e3 : countLabel "sel8" [Entry.label "all" 1] = 0 := rfl
        have e4 : countLabel "all" [Entry.label "all" 1] = 1 := rfl
        obtain ⟨hs1, hs2⟩ := hs
        by_cases hc : ev.1.sel8 = true
        · simp only [if_pos hc, e1, e2, List.length_append, List.length_singleton]
          omega
        · simp only [if_neg hc, e3, e4, List.length_append, List.length_nil]
          omega
    exact inv events HistogramRegistry.empty ⟨le_refl _, rfl⟩

end ReconstructedSpectra

section ReconstructedTruthSelection

open o2.framework o2.aod NucleiSpectraEfficiencyLightRec

/-- The loop body of `Rec::process` seen from the three reconstructed-pt
histograms: the pion and proton histograms gain the track's `pt` only when the MC
particle has the species' PDG code and is a physical primary, the helium-3 histogram
gains `2 pt` whenever the MC particle has the PDG code -1000020030, primary or not
(each under the track cut, the n-sigma window and the rapidity window). -/
theorem NucleiSpectraEfficiencyLightRec.processTrack_get_recPt (cfg : Configurables)
    (lib : Library) (spectra : HistogramRegistry) (track : Track) :
    (processTrack cfg lib spectra track).get "histRecPtPion" =
      spectra.get "histRecPtPion" ++
        (if track.itsNCls ≠ 0 ∧
            (track.tpcNSigmaPi > cfg.nsigmacutLow ∧ track.tpcNSigmaPi < cfg.nsigmacutHigh) ∧
            (track.mcParticle.pdgCode = 211 ∧ track.mcParticle.isPhysicalPrimary = true) ∧
            (lib.Rapidity track.pt track.eta track.phi lib.MassPionCharged > -0.5 ∧
              lib.Rapidity track.pt track.eta track.phi lib.MassPionCharged < 0.5)
          then [Entry.x track.pt] else []) ∧
    (processTrack cfg lib spectra track).get "histRecPtProton" =
      spectra.get "histRecPtProton" ++
        (if track.itsNCls ≠ 0 ∧
            (track.tpcNSigmaPr > cfg.nsigmacutLow ∧ track.tpcNSigmaPr < cfg.nsigmacutHigh) ∧
            (track.mcParticle.pdgCode = -2212 ∧ track.mcParticle.isPhysicalPrimary = true) ∧
            (lib.Rapidity track.pt track.eta track.phi lib.MassProton > -0.5 ∧
              lib.Rapidity track.pt track.eta track.phi lib.MassProton < 0.5)
          then [Entry.x track.pt] else []) ∧
    (processTrack cfg lib spectra track).get "histRecPtHe3" =
      spectra.get "histRecPtHe3" ++
        (if track.itsNCls ≠ 0 ∧
            (track.tpcNSigmaHe + 94.222101 * lib.Exp (-0.905203 * track.tpcInnerParam) >
                cfg.nsigmacutLow ∧
              track.tpcNSigmaHe + 94.222101 * lib.Exp (-0.905203 * track.tpcInnerParam) <
                cfg.nsigmacutHigh) ∧
            track.mcParticle.pdgCode = -1000020030 ∧
            (lib.Rapidity (track.pt * 2.0) track.eta track.phi lib.MassHelium3 > -0.5 ∧
              lib.Rapidity (track.pt * 2.0) track.eta track.phi lib.MassHelium3 < 0.5)
          then [Entry.x (track.pt * 2.0)] else []) := by
  refine ⟨?_, ?_, ?_⟩
  · by_cases h0 : track.itsNCls = 0
    · unfold processTrack
      rw [if_pos h0]
      simp [h0]
    · unfold processTrack
      rw [if_neg h0]
      simp only [HistogramRegistry.get_ite, HistogramRegistry.get_fill, String.reduceEq,
        if_true, if_false, ite_self]
      simp only [ne_eq, h0, not_false_eq_true, true_and]
      split_ifs <;> simp_all
  · by_cases h0 : track.itsNCls = 0
    · unfold processTrack
      rw [if_pos h0]
      simp [h0]
    · unfold processTrack
      rw [if_neg h0]
      simp only [HistogramRegistry.get_ite, HistogramRegistry.get_fill, String.reduceEq,
        if_true, if_false, ite_self]
      simp only [ne_eq, h0, not_false_eq_true, true_and]
      split_ifs <;> simp_all
  · by_cases h0 : track.itsNCls = 0
    · unfold processTrack
      rw [if_pos h0]
      simp [h0]
    · unfold processTrack
      rw [if_neg h0]
      simp only [HistogramRegistry.get_ite, HistogramRegistry.get_fill, String.reduceEq,
        if_true, if_false, ite_self]
      simp only [ne_eq, h0, not_false_eq_true, true_and]
      generalize track.tpcNSigmaHe + 94.222101 * lib.Exp (-0.905203 * track.tpcInnerParam) = ns
      generalize lib.Rapidity (track.pt * 2.0) track.eta track.phi lib.MassHelium3 = rap
      split_ifs <;> simp_all

/-- C10, at the input where the code departs from it: in an event that passes
`sel8`, a track with at least one ITS cluster whose MC particle has the PDG code
-1000020030 and is NOT a physical primary still adds its `2 pt` to `histRecPtHe3`,
as soon as its corrected helium n-sigma lies in the window of the cuts and its
rapidity in (-0.5, 0.5); the primary status is not consulted for helium-3. -/
theorem Rec_histRecPtHe3_filled_for_secondary (cfg : Configurables) (lib : Library)
    (collision : Collision) (track : Track) (spectra : HistogramRegistry)
    (hsel : collision.sel8 = true) (hits : track.itsNCls ≠ 0)
    (hpdg : track.mcParticle.pdgCode = -1000020030)
    (hprim : track.mcParticle.isPhysicalPrimary = false)
    (hlow : track.tpcNSigmaHe + 94.222101 * lib.Exp (-0.905203 * track.tpcInnerParam) >
      cfg.nsigmacutLow)
    (hhigh : track.tpcNSigmaHe + 94.222101 * lib.Exp (-0.905203 * track.tpcInnerParam) <
      cfg.nsigmacutHigh)
    (hylow : lib.Rapidity (track.pt * 2.0) track.eta track.phi lib.MassHelium3 > -0.5)
    (hyhigh : lib.Rapidity (track.pt * 2.0) track.eta track.phi lib.MassHelium3 < 0.5) :
    track.mcParticle.isPhysicalPrimary = false ∧
    (process cfg lib collision [track] spectra).get "histRecPtHe3" =
      spectra.get "histRecPtHe3" ++ [Entry.x (track.pt * 2.0)] ∧
    (process cfg lib collision [track] spectra).get "histRecPtPion" =
      spectra.get "histRecPtPion" ∧
    (process cfg lib collision [track] spectra).get "histRecPtProton" =
      spectra.get "histRecPtProton" := by
  have hstep := NucleiSpectraEfficiencyLightRec.processTrack_get_recPt cfg lib
    (((spectra.fill "histEvSel" (Entry.label "all" 1)).fill "histEvSel"
      (Entry.label "sel8" 1)).fill "histRecVtxZ" (Entry.x collision.posZ)) track
  have hproc : process cfg lib collision [track] spectra =
      processTrack cfg lib
        (((spectra.fill "histEvSel" (Entry.label "all" 1)).fill "histEvSel"
          (Entry.label "sel8" 1)).fill "histRecVtxZ" (Entry.x collision.posZ)) track := by
    simp [process, hsel]
  refine ⟨hprim, ?_, ?_, ?_⟩
  · rw [hproc, hstep.2.2, if_pos ⟨hits, ⟨hlow, hhigh⟩, hpdg, hylow, hyhigh⟩]
    simp [HistogramRegistry.get_fill]
  · rw [hproc, hstep.1, if_neg (fun h => by simp [hprim] at h)]
    simp [HistogramRegistry.get_fill]
  · rw [hproc, hstep.2.1, if_neg (fun h => by simp [hprim] at h)]
    simp [HistogramRegistry.get_fill]

/-- The statement of `Rec_histRecPtHe3_filled_for_secondary` for the track
`secondaryAntiHe3Track` in an accepted collision at `z = 0`, with the default cuts,
the sample library and empty histograms: `histRecPtHe3` receives the entry 4. -/
theorem Rec_histRecPtHe3_filled_for_secondary_witness :
    secondaryAntiHe3Track.mcParticle.isPhysicalPrimary = false ∧
    (process defaultConfigurables sampleLibrary ⟨true, 0⟩ [secondaryAntiHe3Track]
      HistogramRegistry.empty).get "histRecPtHe3" =
        HistogramRegistry.empty.get "histRecPtHe3" ++
          [Entry.x (secondaryAntiHe3Track.pt * 2.0)] ∧
    (process defaultConfigurables sampleLibrary ⟨true, 0⟩ [secondaryAntiHe3Track]
      HistogramRegistry.empty).get "histRecPtPion" =
        HistogramRegistry.empty.get "histRecPtPion" ∧
    (process defaultConfigurables sampleLibrary ⟨true, 0⟩ [secondaryAntiHe3Track]
      HistogramRegistry.empty).get "histRecPtProton" =
        HistogramRegistry.empty.get "histRecPtProton" :=
  Rec_histRecPtHe3_filled_for_secondary defaultConfigurables sampleLibrary ⟨true, 0⟩
    secondaryAntiHe3Track HistogramRegistry.empty rfl (by decide) rfl rfl
    (by norm_num [secondaryAntiHe3Track, sampleLibrary, defaultConfigurables, expSeries,
      List.range_succ, List.foldl])
    (by norm_num [secondaryAntiHe3Track, sampleLibrary, defaultConfigurables, expSeries,
      List.range_succ, List.foldl])
    (by norm_num [secondaryAntiHe3Track, sampleLibrary])
    (by norm_num [secondaryAntiHe3Track, sampleLibrary])

end ReconstructedTruthSelection

section ClusterDefinitionIds

open o2.aod o2.aod.emcalcluster

/-- C11: the six predefined cluster definitions carry the ids 0, 1, 2, 10, 11, 12,
which are pairwise distinct, and the six predefined names, which are pairwise
distinct; every predefined name resolves to one of the six definitions; two names
that both resolve, to definitions with the same id, are the same name; and two of
the six definitions with the same id are the same definition, so an integer of the
`Definition` column (an `int` column) identifies at most one of them. -/
theorem predefined_ids_identify_definitions :
    predefinedDefinitions.map (fun d => d.id) = [0, 1, 2, 10, 11, 12] ∧
    (predefinedDefinitions.map (fun d => d.id)).Nodup ∧
    predefinedDefinitions.map (fun d => d.name) = predefinedNames ∧
    predefinedNames.Nodup ∧
    (∀ n ∈ predefinedNames,
      ∃ d ∈ predefinedDefinitions, getClusterDefinitionFromString n = .ok d) ∧
    (∀ (a b : String) (da db : EMCALClusterDefinition),
      getClusterDefinitionFromString a = .ok da →
      getClusterDefinitionFromString b = .ok db → da.id = db.id → a = b) ∧
    (∀ d1 ∈ predefinedDefinitions, ∀ d2 ∈ predefinedDefinitions,
      d1.id = d2.id → d1 = d2) ∧
    Column.Definition.type = ColumnType.int := by
  refine ⟨by decide, by decide, by decide, by decide, ?_, ?_, ?_, rfl⟩
  · intro n hn
    simp only [predefinedNames, List.mem_cons, List.mem_singleton, List.not_mem_nil,
      or_false] at hn
    rcases hn with h | h | h | h | h | h <;> subst h
    · exact ⟨kV1Default, by simp [predefinedDefinitions], rfl⟩
    · exact ⟨kV1Variation1, by simp [predefinedDefinitions], rfl⟩
    · exact ⟨kV1Variation2, by simp [predefinedDefinitions], rfl⟩
    · exact ⟨kV3Default, by simp [predefinedDefinitions], rfl⟩
    · exact ⟨kV3Variation1, by simp [predefinedDefinitions], rfl⟩
    · exact ⟨kV3Variation2, by simp [predefinedDefinitions], rfl⟩
  swap
  · intro d1 h1 d2 h2 hid
    simp only [predefinedDefinitions, List.mem_cons, List.mem_singleton, List.not_mem_nil,
      or_false] at h1 h2
    rcases h1 with h | h | h | h | h | h <;> subst h <;>
      rcases h2 with h | h | h | h | h | h <;> subst h <;>
      first
      | rfl
      | exact absurd hid (by decide)
  intro a b da db ha hb hid
  have key : ∀ (s : String) (d : EMCALClusterDefinition),
      getClusterDefinitionFromString s = .ok d →
      (s = "kV1Default" ∧ d.id = 0) ∨ (s = "kV1Variation1" ∧ d.id = 1) ∨
      (s = "kV1Variation2" ∧ d.id = 2) ∨ (s = "kV3Default" ∧ d.id = 10) ∨
      (s = "kV3Variation1" ∧ d.id = 11) ∨ (s = "kV3Variation2" ∧ d.id = 12) := by
    intro s d h
    unfold getClusterDefinitionFromString at h
    split_ifs at h with h1 h2 h3 h4 h5 h6
    · have hd := Except.ok.inj h
      subst hd
      exact Or.inl ⟨h1, rfl⟩
    · have hd := Except.ok.inj h
      subst hd
      exact Or.inr (Or.inl ⟨h2, rfl⟩)
    · have hd := Except.ok.inj h
      subst hd
      exact Or.inr (Or.inr (Or.inl ⟨h3, rfl⟩))
    · have hd := Except.ok.inj h
      subst hd
      exact Or.inr (Or.inr (Or.inr (Or.inl ⟨h4, rfl⟩)))
    · have hd := Except.ok.inj h
      subst hd
      exact Or.inr (Or.inr (Or.inr (Or.inr (Or.inl ⟨h5, rfl⟩))))
    · have hd := Except.ok.inj h
      subst hd
      exact Or.inr (Or.inr (Or.inr (Or.inr (Or.inr ⟨h6, rfl⟩))))
  rcases key a da ha with ⟨e1, i1⟩ | ⟨e1, i1⟩ | ⟨e1, i1⟩ | ⟨e1, i1⟩ | ⟨e1, i1⟩ | ⟨e1, i1⟩ <;>
    rcases key b db hb with ⟨e2, i2⟩ | ⟨e2, i2⟩ | ⟨e2, i2⟩ | ⟨e2, i2⟩ | ⟨e2, i2⟩ | ⟨e2, i2⟩ <;>
    first
    | (rw [e1, e2]; done)
    | (rw [i1, i2] at hid; exact absurd hid (by decide))

end ClusterDefinitionIds
